import Mathlib

/-!
Verification of the Document Retrieval & Structured-Extraction Pipeline
(doc_chatbotgpt repository).

This file shallowly embeds the deterministic parts of the Python sources
(`business_docs_analyzer.py`, `workflows.py`, `contract_analyzer.py`,
`edi_analyzer.py`, `salary_slip_analyzer.py`, `app.py`) as executable Lean
definitions and proves or refutes the frozen claims about them.

Modelling conventions:
* Python `float` amounts are modelled as rationals (`ℚ`); every comparison
  the code performs on them is exact in the source ranges of interest.
* Python strings are Lean `String`s; helper functions (`pyStrip`, `pyUpper`,
  `pyLower`, `pyContains`) reproduce CPython semantics on ASCII input.
* Calls to the external LLM / retriever collaborators are parameters
  (oracles); an exception raised by a collaborator is an `Except.error` /
  `Option.none` value, and `try/except` blocks in the source become pattern
  matches on those values.
-/

/-! ## Python string primitives -/

/-- CPython `str.strip()` whitespace class (ASCII part): the code points
9-13 (tab, newline, vertical tab, form feed, carriage return) and 32. -/
def pyIsSpace (c : Char) : Bool :=
  (9 ≤ c.toNat ∧ c.toNat ≤ 13) ∨ c.toNat = 32

/-- `str.strip()` on the character list. -/
def pyStripList (l : List Char) : List Char :=
  ((l.dropWhile pyIsSpace).reverse.dropWhile pyIsSpace).reverse

/-- Python `s.strip()`. -/
def pyStrip (s : String) : String := String.mk (pyStripList s.data)

/-- Length of `s.strip()`, i.e. Python `len(s.strip())`. -/
def pyStripLen (s : String) : Nat := (pyStripList s.data).length

/-- Python `s.upper()` (ASCII). -/
def pyUpper (s : String) : String := String.mk (s.data.map Char.toUpper)

/-- Python `s.lower()` (ASCII). -/
def pyLower (s : String) : String := String.mk (s.data.map Char.toLower)

/-- `occursIn needle hay`: `needle` occurs as a contiguous run inside `hay`. -/
def occursIn (needle : List Char) : List Char → Bool
  | [] => needle.isEmpty
  | b :: rest => needle.isPrefixOf (b :: rest) || occursIn needle rest

/-- Python `needle in hay` on strings. -/
def pyContains (hay needle : String) : Bool := occursIn needle.data hay.data

/-- Python `s.startswith(p)`. -/
def pyStartsWith (s p : String) : Bool := p.data.isPrefixOf s.data

/-- Python `s.endswith(p)`. -/
def pyEndsWith (s p : String) : Bool := p.data.reverse.isPrefixOf s.data.reverse

/-! ## C5 — overall contract risk (`contract_analyzer.py`,
`ContractAnalyzer._calculate_overall_risk`, lines 582-595) -/

/-- A risk finding as consumed by `_calculate_overall_risk`: only its
`riskLevel` entry (defaulting to `""` via `r.get("riskLevel", "")`) matters. -/
structure ContractRisk where
  riskLevel : String
deriving DecidableEq

/-- `sum(1 for r in risks if r.get("riskLevel", "").upper() == level)`. -/
def countRiskLevel (risks : List ContractRisk) (level : String) : Nat :=
  (risks.filter (fun r => pyUpper r.riskLevel == level)).length

/-- Embedding of `ContractAnalyzer._calculate_overall_risk`. -/
def calculateOverallRisk (risks : List ContractRisk) : String :=
  if risks = [] then "LOW"
  else
    let highCount := countRiskLevel risks "HIGH"
    let mediumCount := countRiskLevel risks "MEDIUM"
    if 2 ≤ highCount then "HIGH"
    else if 1 ≤ highCount ∨ 3 ≤ mediumCount then "MEDIUM"
    else "LOW"

/-! ## C10 — salary-slip mistake accumulation (`salary_slip_analyzer.py`,
`analyze_salary_slip`, lines 127-199) -/

/-- An extracted earnings/deductions amount: either numeric
(`isinstance(amount, (int, float))`) or some other JSON value (skipped by the
component sums). -/
inductive SalaryAmount where
  | numeric (q : ℚ)
  | text (s : String)
deriving DecidableEq

/-- One entry of `extracted_data["earnings"]` / `["deductions"]`. -/
structure SalaryComponent where
  component : String
  amount : SalaryAmount
deriving DecidableEq

/-- The numeric amounts of a component list.  For a numeric `amount` the code
round-trips it through `float(str(amount).replace("₹","").replace(",","").replace("$",""))`,
which is the identity on a plain numeric rendering. -/
def numericAmounts (items : List SalaryComponent) : List ℚ :=
  items.filterMap (fun it =>
    match it.amount with
    | .numeric q => some q
    | .text _ => none)

/-- `calculated_total_earnings` / `calculated_total_deductions`. -/
def calculatedTotal (items : List SalaryComponent) : ℚ := (numericAmounts items).sum

/-- The mistakes accumulated by `analyze_salary_slip`, distinguished by which
append site produced them (each carries exactly the numbers interpolated into
its f-string message). -/
inductive SalaryMistake where
  | fromExtraction (title message : String)
  | earningsMismatch (calculatedEarnings docEarnings difference : ℚ)
  | netPayError (calculatedNet docNet expectedNet difference : ℚ)
  | verificationFailed (earnings deductions expectedNet netPay difference : ℚ)
deriving DecidableEq

/-- `isinstance(x, (int, float))` projection used for
`doc_earnings_num` / `doc_net_pay_num`. -/
def toNumOpt : SalaryAmount → Option ℚ
  | .numeric q => some q
  | .text _ => none

/-- Embedding of the mistake-accumulation section of `analyze_salary_slip`
(lines 174-199): `calculated_net_pay = calculated_total_earnings -
calculated_total_deductions`, then the three verification appends.  The
Python truthiness guards (`if doc_earnings_num and ...`) skip both `None`
and `0`. -/
def salaryMistakes (extractedErrors : List (String × String))
    (earnings deductions : List SalaryComponent)
    (docEarnings docNetPay : SalaryAmount) : List SalaryMistake :=
  let te := calculatedTotal earnings
  let td := calculatedTotal deductions
  let netPay := te - td
  let base := extractedErrors.map (fun p => SalaryMistake.fromExtraction p.1 p.2)
  let m1 :=
    match toNumOpt docEarnings with
    | some v =>
        if v ≠ 0 ∧ 1 < |te - v| then [SalaryMistake.earningsMismatch te v |te - v|] else []
    | none => []
  let m2 :=
    match toNumOpt docNetPay with
    | some v =>
        if v ≠ 0 ∧ 1 < |netPay - v| then
          let expectedNet :=
            (match toNumOpt docEarnings with
             | some e => if e ≠ 0 then e else te
             | none => te) - td
          [SalaryMistake.netPayError netPay v expectedNet |netPay - v|]
        else []
    | none => []
  let expectedNetFromCalc := te - td
  let m3 :=
    if 1 < |netPay - expectedNetFromCalc| then
      [SalaryMistake.verificationFailed te td expectedNetFromCalc netPay
        |netPay - expectedNetFromCalc|]
    else []
  base ++ m1 ++ m2 ++ m3

/-- Recogniser for the `"Calculation Verification Failed"` mistake. -/
def isVerificationFailed : SalaryMistake → Bool
  | .verificationFailed _ _ _ _ _ => true
  | _ => false

/-! ## C9 — EDI structure validation (`edi_analyzer.py`,
`EDIAnalyzer.validate_structure`, lines 41-145) -/

/-- Regex class `[A-Z]`. -/
def isUpperAZ (c : Char) : Bool := 'A' ≤ c ∧ c ≤ 'Z'

/-- Regex class `[0-9]`. -/
def isDigit09 (c : Char) : Bool := '0' ≤ c ∧ c ≤ '9'

/-- Try to match the container pattern `[A-Z]{4}[0-9]{7}` at the head of the
list; on success return the 11-character match and the remaining input. -/
def matchContainer : List Char → Option (String × List Char)
  | a :: b :: c :: d :: e1 :: e2 :: e3 :: e4 :: e5 :: e6 :: e7 :: rest =>
    if isUpperAZ a ∧ isUpperAZ b ∧ isUpperAZ c ∧ isUpperAZ d ∧
       isDigit09 e1 ∧ isDigit09 e2 ∧ isDigit09 e3 ∧ isDigit09 e4 ∧
       isDigit09 e5 ∧ isDigit09 e6 ∧ isDigit09 e7 then
      some (String.mk [a, b, c, d, e1, e2, e3, e4, e5, e6, e7], rest)
    else none
  | _ => none

/-- `re.findall(r"[A-Z]{4}[0-9]{7}", content)`: leftmost, non-overlapping
matches, continuing after the end of each match.  Fuel-indexed; the fuel is
the input length, which suffices since every step consumes at least one
character. -/
def findContainersAux : Nat → List Char → List String
  | 0, _ => []
  | _, [] => []
  | fuel + 1, c :: rest =>
    match matchContainer (c :: rest) with
    | some (s, rem) => s :: findContainersAux fuel rem
    | none => findContainersAux fuel rest

/-- All container-number matches in `content`. -/
def findContainers (content : String) : List String :=
  findContainersAux content.data.length content.data

/-- Result record of `validate_structure`. -/
structure EdiValidation where
  isValid : Bool
  errors : List String
  warnings : List String
  suggestions : List String
  formatType : String
  containersFound : Nat
  containerNumbers : List String
deriving DecidableEq

/-- Embedding of `EDIAnalyzer.validate_structure`.  `list(set(containers))`
is modelled by `List.eraseDups` (CPython set order is unspecified; only the
count of distinct elements feeds back into the output and the error text). -/
def validateStructure (content formatType : String) : EdiValidation :=
  let contentUpper := pyUpper content
  let baplie := formatType == "BAPLIE"
  let containers := if baplie then findContainers content else []
  let containersFound := if baplie then containers.eraseDups else []
  let branchErrors : List String :=
    (if baplie then
      (if pyContains contentUpper "BGM+945" then []
       else ["Missing BGM segment (Message Header) - Required for BAPLIE"]) ++
      (if pyContains contentUpper "LOC+" then []
       else ["Missing LOC segment (Location) - Required for container stowage"]) ++
      (if pyContains contentUpper "EQD+" then []
       else ["Missing EQD segment (Equipment Details) - Required for container info"]) ++
      (if containers ≠ [] ∧ containers.length ≠ containersFound.length then
        ["Duplicate container records found: " ++
          toString (containers.length - containersFound.length) ++ " duplicates"]
       else [])
     else []) ++
    (if formatType == "MOVINS" then
      (if pyContains contentUpper "BGM+910" then [] else ["Missing BGM segment (Message Header)"])
     else []) ++
    (if formatType == "COPRAR" then
      (if pyContains contentUpper "BGM+920" then [] else ["Missing BGM segment (Message Header)"])
     else []) ++
    (if formatType == "IFTMIN" then
      (if pyContains contentUpper "BGM+380" then [] else ["Missing BGM segment (Message Header)"])
     else []) ++
    (if formatType == "CODECO" then
      (if pyContains contentUpper "BGM+950" then [] else ["Missing BGM segment (Message Header)"])
     else []) ++
    (if formatType == "CUSCAR" then
      (if pyContains contentUpper "BGM+951" then [] else ["Missing BGM segment (Message Header)"])
     else [])
  let branchWarnings : List String :=
    (if baplie then
      (if pyContains contentUpper "TDT+" then [] else ["Missing TDT segment (Transport Details)"]) ++
      (if containers = [] then ["No valid container numbers found (format: ABCD1234567)"] else []) ++
      (if pyContains contentUpper "LOC+147" ∨ pyContains contentUpper "LOC+9" then []
       else ["Missing stowage position information (LOC segments)"]) ++
      (if pyContains contentUpper "MEA+AAE" ∨ pyContains contentUpper "MEA+WT" then []
       else ["Missing weight information (MEA segments)"])
     else []) ++
    (if formatType == "MOVINS" then
      (if pyContains contentUpper "TDT+" then [] else ["Missing TDT segment (Transport Details)"]) ++
      (if pyContains contentUpper "NAD+" then [] else ["Missing NAD segment (Name and Address)"]) ++
      (if pyContains contentUpper "RFF+" then [] else ["Missing RFF segment (Reference)"])
     else []) ++
    (if formatType == "COPRAR" then
      (if pyContains contentUpper "NAD+" then [] else ["Missing NAD segment (Name and Address)"])
     else []) ++
    (if formatType == "IFTMIN" then
      (if pyContains contentUpper "TDT+" then [] else ["Missing TDT segment (Transport Details)"])
     else []) ++
    (if formatType == "CODECO" then
      (if pyContains contentUpper "CNT+" then [] else ["Missing CNT segment (Container Count)"])
     else []) ++
    (if formatType == "CUSCAR" then
      (if pyContains contentUpper "CUS+" then [] else ["Missing CUS segment (Customs Information)"])
     else [])
  let basicApplies := formatType == "EDIFACT" ∨ formatType == "BAPLIE" ∨
      formatType == "MOVINS" ∨ formatType == "COPRAR"
  let basicErrors : List String :=
    if basicApplies ∧ ¬ pyContains content "\x27" ∧ ¬ pyContains content "+" then
      ["Invalid EDI format - missing segment separators (\x27 or +)"]
    else []
  let basicWarnings : List String :=
    if basicApplies ∧ (pyContains content "\x27" ∨ pyContains content "+") ∧
        (content.splitOn "\x27").length < 5 then
      ["Low segment count (" ++ toString (content.splitOn "\x27").length ++
        " segments) - file may be incomplete"]
    else []
  let errors := branchErrors ++ basicErrors
  let warnings := branchWarnings ++ basicWarnings
  let suggestions : List String :=
    (if errors ≠ [] then ["Review EDI structure and ensure all required segments are present"] else []) ++
    (if warnings ≠ [] then ["Consider adding missing optional segments for better data completeness"] else []) ++
    (if containersFound ≠ [] then
      ["Found " ++ toString containersFound.length ++
        " unique containers - verify container numbers match physical containers"]
     else [])
  { isValid := errors.isEmpty
    errors := errors
    warnings := warnings
    suggestions := suggestions
    formatType := formatType
    containersFound := containersFound.length
    containerNumbers := containersFound.take 10 }

/-! ## JSON values and `json.loads` (shared by C2, C3, C4)

`workflows.py`, `business_docs_analyzer.py` and friends parse LLM replies
with `json.loads`; the denylist scan in `extract_tables` renders a row back
with `json.dumps`.  The embedding below implements the JSON grammar that
CPython's `json` module accepts (strict mode): leading/trailing whitespace
tolerated, trailing data rejected, no trailing commas, `[1-9]` leading-digit
rule for numbers, escape sequences in strings, literal control characters
rejected. -/

/-- A JSON value.  Python `int` and `float` are both mapped to `ℚ`; object
fields keep insertion order (CPython dicts are ordered). -/
inductive JValue where
  | null
  | bool (b : Bool)
  | num (q : ℚ)
  | str (s : String)
  | arr (items : List JValue)
  | obj (fields : List (String × JValue))

/-- JSON whitespace: space (32), tab (9), newline (10), carriage return (13). -/
def isJsonWs (c : Char) : Bool :=
  c.toNat = 32 ∨ c.toNat = 9 ∨ c.toNat = 10 ∨ c.toNat = 13

/-- Skip leading JSON whitespace. -/
def skipWs : List Char → List Char
  | c :: rest => if isJsonWs c then skipWs rest else c :: rest
  | [] => []

/-- Hexadecimal digit value, for `\uXXXX` escapes (digits 48-57, lowercase
letters 97-102, uppercase letters 65-70 by code point). -/
def hexVal (c : Char) : Option Nat :=
  let n := c.toNat
  if 48 ≤ n ∧ n ≤ 57 then some (n - 48)
  else if 97 ≤ n ∧ n ≤ 102 then some (n - 87)
  else if 65 ≤ n ∧ n ≤ 70 then some (n - 55)
  else none

/-- Body of a JSON string literal (after the opening quote): returns the
decoded string and the input after the closing quote. -/
def parseStringBody : Nat → List Char → List Char → Option (String × List Char)
  | 0, _, _ => none
  | _, [], _ => none
  | fuel + 1, c :: rest, acc =>
    if c = '"' then some (String.mk acc.reverse, rest)
    else if c = '\\' then
      match rest with
      | [] => none
      | e :: rest2 =>
        if e = '"' then parseStringBody fuel rest2 ('"' :: acc)
        else if e = '\\' then parseStringBody fuel rest2 ('\\' :: acc)
        else if e = '/' then parseStringBody fuel rest2 ('/' :: acc)
        else if e = 'n' then parseStringBody fuel rest2 ('\n' :: acc)
        else if e = 't' then parseStringBody fuel rest2 ('\t' :: acc)
        else if e = 'r' then parseStringBody fuel rest2 ('\r' :: acc)
        else if e = 'b' then parseStringBody fuel rest2 ('\x08' :: acc)
        else if e = 'f' then parseStringBody fuel rest2 ('\x0c' :: acc)
        else if e = 'u' then
          match rest2 with
          | h1 :: h2 :: h3 :: h4 :: rest3 =>
            match hexVal h1, hexVal h2, hexVal h3, hexVal h4 with
            | some a, some b, some c2, some d =>
              parseStringBody fuel rest3 (Char.ofNat (((a * 16 + b) * 16 + c2) * 16 + d) :: acc)
            | _, _, _, _ => none
          | _ => none
        else none
    else if c.toNat < 32 then none
    else parseStringBody fuel rest (c :: acc)

/-- Digit run to a natural number, accumulator style. -/
def digitsToNatAux : Nat → List Char → Nat
  | acc, [] => acc
  | acc, d :: ds => digitsToNatAux (10 * acc + (d.toNat - 48)) ds

/-- Digit run to a natural number. -/
def digitsToNat (ds : List Char) : Nat := digitsToNatAux 0 ds

/-- JSON number at the head of the input:
`-? (0 | [1-9][0-9]*) (\.[0-9]+)? ([eE][+-]?[0-9]+)?`.  A bare trailing `.`
or `e` is left unconsumed, exactly as CPython's number regex does. -/
def parseNumber (input : List Char) : Option (JValue × List Char) :=
  let (neg, s1) :=
    match input with
    | '-' :: rest => (true, rest)
    | _ => (false, input)
  match s1 with
  | [] => none
  | c :: _ =>
    if ¬ isDigit09 c then none
    else
      let (intDs, s2) := s1.span isDigit09
      if 1 < intDs.length ∧ intDs.headD '0' = '0' then none
      else
        let (fracDs, s3) :=
          match s2 with
          | '.' :: rest =>
            let (fds, rem) := rest.span isDigit09
            if fds = [] then ([], s2) else (fds, rem)
          | _ => ([], s2)
        let (expSign, expDs, s4) :=
          match s3 with
          | 'e' :: '+' :: rest =>
            let (eds, rem) := rest.span isDigit09
            if eds = [] then (1, [], s3) else ((1 : ℤ), eds, rem)
          | 'e' :: '-' :: rest =>
            let (eds, rem) := rest.span isDigit09
            if eds = [] then (1, [], s3) else (-1, eds, rem)
          | 'e' :: rest =>
            let (eds, rem) := rest.span isDigit09
            if eds = [] then (1, [], s3) else (1, eds, rem)
          | 'E' :: '+' :: rest =>
            let (eds, rem) := rest.span isDigit09
            if eds = [] then (1, [], s3) else (1, eds, rem)
          | 'E' :: '-' :: rest =>
            let (eds, rem) := rest.span isDigit09
            if eds = [] then (1, [], s3) else (-1, eds, rem)
          | 'E' :: rest =>
            let (eds, rem) := rest.span isDigit09
            if eds = [] then (1, [], s3) else (1, eds, rem)
          | _ => (1, [], s3)
        let den10 : Nat := 10 ^ fracDs.length
        let baseNum : Nat := digitsToNat intDs * den10 + digitsToNat fracDs
        let e : Nat := digitsToNat expDs
        let mag : ℚ :=
          if 0 ≤ expSign then ((baseNum * 10 ^ e : Nat) : ℚ) / (den10 : ℚ)
          else (baseNum : ℚ) / ((den10 * 10 ^ e : Nat) : ℚ)
        some (JValue.num (if neg then -mag else mag), s4)

mutual

/-- A JSON value at the head of the input (after whitespace). -/
def parseValue : Nat → List Char → Option (JValue × List Char)
  | 0, _ => none
  | fuel + 1, input =>
    match skipWs input with
    | [] => none
    | '\x7b' :: rest =>
      match skipWs rest with
      | '\x7d' :: rem => some (JValue.obj [], rem)
      | other => parseMembers fuel other []
    | '[' :: rest =>
      match skipWs rest with
      | ']' :: rem => some (JValue.arr [], rem)
      | other => parseElements fuel other []
    | '"' :: rest =>
      match parseStringBody (rest.length + 1) rest [] with
      | some (s, rem) => some (JValue.str s, rem)
      | none => none
    | 't' :: 'r' :: 'u' :: 'e' :: rest => some (JValue.bool true, rest)
    | 'f' :: 'a' :: 'l' :: 's' :: 'e' :: rest => some (JValue.bool false, rest)
    | 'n' :: 'u' :: 'l' :: 'l' :: rest => some (JValue.null, rest)
    | other => parseNumber other

/-- Non-empty member list of a JSON object, accumulator-reversed. -/
def parseMembers : Nat → List Char → List (String × JValue) → Option (JValue × List Char)
  | 0, _, _ => none
  | fuel + 1, input, acc =>
    match skipWs input with
    | '"' :: rest =>
      match parseStringBody (rest.length + 1) rest [] with
      | some (key, rem) =>
        match skipWs rem with
        | ':' :: rem2 =>
          match parseValue fuel rem2 with
          | some (v, rem3) =>
            match skipWs rem3 with
            | ',' :: rem4 => parseMembers fuel rem4 ((key, v) :: acc)
            | '\x7d' :: rem4 => some (JValue.obj ((key, v) :: acc).reverse, rem4)
            | _ => none
          | none => none
        | _ => none
      | none => none
    | _ => none

/-- Non-empty element list of a JSON array, accumulator-reversed. -/
def parseElements : Nat → List Char → List JValue → Option (JValue × List Char)
  | 0, _, _ => none
  | fuel + 1, input, acc =>
    match parseValue fuel input with
    | some (v, rem) =>
      match skipWs rem with
      | ',' :: rem2 => parseElements fuel rem2 (v :: acc)
      | ']' :: rem2 => some (JValue.arr (v :: acc).reverse, rem2)
      | _ => none
    | none => none

end

/-- Python `json.loads`: parse one value, tolerate surrounding whitespace,
reject trailing data.  `none` models a raised `JSONDecodeError`. -/
def jsonLoads (s : String) : Option JValue :=
  match parseValue (2 * s.data.length + 2) s.data with
  | some (v, rem) => if skipWs rem = [] then some v else none
  | none => none

/-! ## Regex substring searches used for "repair" parsing

The sources use `re.search(r"\x7b.*\x7d", s, re.DOTALL)` and
`re.search(r"\[.*\]", s, re.DOTALL)`.  With DOTALL and a greedy `.*`, the
match (when it exists) runs from the first opening bracket to the last
closing bracket at or after it; since the two brackets are distinct
characters this is: first opener, last closer overall, provided the closer
comes after the opener. -/

/-- Index of the last occurrence of `c` in `l`. -/
def lastIdxOf (c : Char) (l : List Char) : Option Nat :=
  match l.reverse.findIdx? (· = c) with
  | some j => some (l.length - 1 - j)
  | none => none

/-- `re.search(pattern open..close, s, re.DOTALL)` for a greedy
`open .* close` pattern: the matched substring, if any. -/
def greedyPairSearch (op cl : Char) (s : String) : Option String :=
  let l := s.data
  match l.findIdx? (· = op) with
  | none => none
  | some i =>
    match lastIdxOf cl l with
    | none => none
    | some j =>
      if i < j then some (String.mk ((l.drop i).take (j - i + 1))) else none

/-- `re.search(r"\x7b.*\x7d", s, re.DOTALL)`. -/
def braceSearch (s : String) : Option String := greedyPairSearch '\x7b' '\x7d' s

/-- `re.search(r"\[.*\]", s, re.DOTALL)`. -/
def bracketSearch (s : String) : Option String := greedyPairSearch '[' ']' s

/-! ## C2 — tolerant reply parsing (`workflows.py`,
`WorkflowProcessor.extract_insights`, lines 56-78) -/

/-- Result of the `extract_insights` reply handling: either the parsed JSON
value, or the structured fallback dict, whose list fields are all empty and
whose `summary` carries the raw reply. -/
inductive InsightsResult where
  | parsed (v : JValue)
  | fallback (rawSummary : String)

/-- Embedding of the reply-parsing logic of `extract_insights`: inside one
`try`, the strict parse runs only when the stripped reply starts with `{`
(and its `json.loads` failure jumps straight to the fallback); the
`re.search(r"\x7b.*\x7d", ...)` repair stage runs only in the `else` branch. -/
def extractInsightsParse (result : String) : InsightsResult :=
  if pyStartsWith (pyStrip result) "\x7b" then
    match jsonLoads result with
    | some v => .parsed v
    | none => .fallback result
  else
    match braceSearch result with
    | some sub =>
      match jsonLoads sub with
      | some v => .parsed v
      | none => .fallback result
    | none => .fallback result

/-- The two-stage contract asserted by claim C2, written from the spec words:
FIRST attempt a strict parse of the whole reply; ON STRICT-PARSE FAILURE
attempt the bracket-pair substring parse; only if both fail, fall back. -/
def claimedTolerantParse (result : String) : InsightsResult :=
  match jsonLoads result with
  | some v => .parsed v
  | none =>
    match braceSearch result with
    | some sub =>
      match jsonLoads sub with
      | some v => .parsed v
      | none => .fallback result
    | none => .fallback result

/-! ## C4 — placeholder rejection (`business_docs_analyzer.py`,
`BusinessDocsAnalyzer.extract_tables`, lines 125-200) -/

/-- Hexadecimal digit character (lowercase), for `\uXXXX` output: code
point 48 + n for a digit, 87 + n for a letter. -/
def hexDigit (n : Nat) : Char :=
  Char.ofNat (if n < 10 then 48 + n else 87 + n)

/-- Four-digit lowercase hexadecimal rendering. -/
def hexDigits4 (n : Nat) : List Char :=
  [hexDigit (n / 4096 % 16), hexDigit (n / 256 % 16), hexDigit (n / 16 % 16), hexDigit (n % 16)]

/-- `json.dumps` escaping of one string character (`ensure_ascii=True`
default: non-ASCII characters become `\uXXXX`; code points above the BMP,
which would need surrogate pairs, do not occur in the inputs considered). -/
def escapeJsonChar (c : Char) : List Char :=
  if c = '"' then ['\\', '"']
  else if c = '\\' then ['\\', '\\']
  else if c = '\n' then ['\\', 'n']
  else if c = '\t' then ['\\', 't']
  else if c = '\r' then ['\\', 'r']
  else if c = '\x08' then ['\\', 'b']
  else if c = '\x0c' then ['\\', 'f']
  else if c.toNat < 32 ∨ 126 < c.toNat then '\\' :: 'u' :: hexDigits4 c.toNat
  else [c]

/-- `json.dumps` rendering of a number: exact for integers; non-integral
rationals (which do not occur in the denylist-scan inputs) are rendered as
`num/den`. -/
def dumpNum (q : ℚ) : List Char :=
  if q.den = 1 then (toString q.num).data else (toString q).data

mutual

/-- `json.dumps(v)` with the default separators `", "` and `": "`. -/
def jsonDumpVal : JValue → List Char
  | .null => "null".data
  | .bool true => "true".data
  | .bool false => "false".data
  | .num q => dumpNum q
  | .str s => '"' :: (s.data.map escapeJsonChar).flatten ++ ['"']
  | .arr items => '[' :: jsonDumpList items ++ [']']
  | .obj fields => '\x7b' :: jsonDumpFields fields ++ ['\x7d']

/-- Array elements, `", "`-separated. -/
def jsonDumpList : List JValue → List Char
  | [] => []
  | [v] => jsonDumpVal v
  | v :: rest => jsonDumpVal v ++ (',' :: ' ' :: jsonDumpList rest)

/-- Object members, `", "`-separated, each `"key": value`. -/
def jsonDumpFields : List (String × JValue) → List Char
  | [] => []
  | [(k, v)] => '"' :: (k.data.map escapeJsonChar).flatten ++ ['"', ':', ' '] ++ jsonDumpVal v
  | (k, v) :: rest =>
    '"' :: (k.data.map escapeJsonChar).flatten ++ ['"', ':', ' '] ++ jsonDumpVal v ++
      (',' :: ' ' :: jsonDumpFields rest)

end

/-- `json.dumps` as a string. -/
def jsonDumps (v : JValue) : String := String.mk (jsonDumpVal v)

/-- The fabrication denylist of `extract_tables`
(`sample_patterns = ['Product A', 'Product B', 'Product C', 'Sample', 'Example', 'Test']`). -/
def samplePatterns : List String :=
  ["Product A", "Product B", "Product C", "Sample", "Example", "Test"]

/-- `any(pattern.lower() in json.dumps(row).lower() for pattern in sample_patterns)`. -/
def rowLooksSample (row : JValue) : Bool :=
  samplePatterns.any (fun p => pyContains (pyLower (jsonDumps row)) (pyLower p))

/-- Python truthiness of a JSON value (`if first_table.get('rows'):`). -/
def pyTruthy : JValue → Bool
  | .null => false
  | .bool b => b
  | .num q => decide (q ≠ 0)
  | .str s => s ≠ ""
  | .arr items => ¬ items.isEmpty
  | .obj fields => ¬ fields.isEmpty

/-- `dict.get(k)`: first binding of `k`, if any. -/
def lookupField (fields : List (String × JValue)) (k : String) : Option JValue :=
  (fields.find? (fun p => p.1 == k)).map (·.2)

/-- The sample-data validation of `extract_tables` applied to a successfully
parsed table array: only `parsed[0]` is consulted, and of its `rows` only
`rows[0]` is dumped and scanned.  Subscript/attribute errors on malformed
shapes propagate to the surrounding `except`, which returns `[]`:
* a non-dict first table (`first_table.get` raises) gives `[]`;
* a truthy non-indexable `rows` value (`rows[0]` raises) gives `[]`;
* a truthy string `rows` indexes its first character. -/
def sanitizeTables (parsed : List JValue) : List JValue :=
  match parsed with
  | [] => parsed
  | first :: _ =>
    match first with
    | .obj fields =>
      match lookupField fields "rows" with
      | some rowsVal =>
        if pyTruthy rowsVal then
          match rowsVal with
          | .arr (r0 :: _) => if rowLooksSample r0 then [] else parsed
          | .arr [] => parsed
          | .str s =>
            match s.data with
            | ch :: _ => if rowLooksSample (.str (String.mk [ch])) then [] else parsed
            | [] => parsed
          | _ => []
        else parsed
      | none => parsed
    | _ => []

/-- The reply-parsing part of `extract_tables`: strict parse when the
stripped reply starts with `[`, else the `re.search(r"\[.*\]", ...)` repair;
every parse failure (and every exception from the validation) yields `[]`. -/
def parseTablesReply (reply : String) : List JValue :=
  if pyStartsWith (pyStrip reply) "[" then
    match jsonLoads reply with
    | some (JValue.arr tables) => sanitizeTables tables
    | _ => []
  else
    match bracketSearch reply with
    | some sub =>
      match jsonLoads sub with
      | some (JValue.arr tables) => sanitizeTables tables
      | _ => []
    | none => []

/-- The scan the claim asserts: a denylist marker anywhere in ANY row of ANY
table (written from the claim words, for comparison with `sanitizeTables`). -/
def anyRowLooksSample (tables : List JValue) : Bool :=
  tables.any (fun t =>
    match t with
    | .obj fields =>
      match lookupField fields "rows" with
      | some (.arr rows) => rows.any rowLooksSample
      | _ => false
    | _ => false)

/-! ## C6 — retriever fallback cascade (`business_docs_analyzer.py`,
`BusinessDocsAnalyzer._extract_invoice_content`, lines 23-87) -/

/-- The retriever collaborator as the analyzer sees it.
`getRelevant q = none` models `get_relevant_documents(q)` raising (caught by
the per-query `except: continue`); `some docs` returns the page contents of
the retrieved documents.  `vectorstore` is the `vectorstore` /
`_vectorstore` attribute used by the bulk fallback (`none` when absent), and
its `none` result models `similarity_search` raising. -/
structure Retriever where
  hasGetRelevant : Bool
  getRelevant : String → Option (List String)
  vectorstore : Option (String → Nat → Option (List String))

/-- `format_docs`: `"\n\n".join(doc.page_content for doc in docs)`. -/
def formatDocs (docs : List String) : String := String.intercalate "\n\n" docs

/-- One iteration of a query loop in `_extract_invoice_content`: exceptions
and empty result lists leave the best pair unchanged; a strictly longer
stripped content replaces it (`len(temp_content.strip()) > len(content.strip())`). -/
def considerQuery (r : Retriever) (best : String × List String) (q : String) :
    String × List String :=
  if r.hasGetRelevant then
    match r.getRelevant q with
    | none => best
    | some [] => best
    | some docs =>
      let c := formatDocs docs
      if pyStripLen best.1 < pyStripLen c then (c, docs) else best
  else best

/-- Strategy-1 queries. -/
def invoiceQueries : List String :=
  ["invoice bill invoice number vendor buyer amount total payment", "invoice", "bill",
    "vendor buyer amount"]

/-- Strategy-2 queries. -/
def broadQueries : List String := ["document", "text", "content", ""]

/-- Strategy 1: try every invoice-specific query, keeping the longest. -/
def invoiceStage1 (r : Retriever) : String × List String :=
  invoiceQueries.foldl (considerQuery r) ("", [])

/-- Strategy 2: only when the best content so far is under 200 stripped
characters, try the broader queries the same way. -/
def invoiceStage2 (r : Retriever) (s1 : String × List String) : String × List String :=
  if pyStripLen s1.1 < 200 then broadQueries.foldl (considerQuery r) s1 else s1

/-- Strategy 3: the direct-vectorstore bulk dump `similarity_search("", k=200)`,
run only when the best content is still under the 200-character gate and
kept only when strictly longer. -/
def invoiceBulk (r : Retriever) (s2 : String × List String) : String × List String :=
  if pyStripLen s2.1 < 200 then
    match r.vectorstore with
    | none => s2
    | some search =>
      match search "" 200 with
      | none => s2
      | some [] => s2
      | some docs =>
        let c := formatDocs docs
        if pyStripLen s2.1 < pyStripLen c then (c, docs) else s2
  else s2

/-- Embedding of `_extract_invoice_content`: strategy 1, then strategy 2,
then the bulk dump. -/
def extractInvoiceContent (r : Retriever) : String × List String :=
  invoiceBulk r (invoiceStage2 r (invoiceStage1 r))

/-- The cascade asserted by claim C6, written from the claim words: accept
the FIRST query whose stripped content length exceeds the 200-character
threshold, else keep the longest seen so far. -/
def claimedCascade (r : Retriever) : List String → (String × List String) → String × List String
  | [], best => best
  | q :: rest, best =>
    if r.hasGetRelevant then
      match r.getRelevant q with
      | none => claimedCascade r rest best
      | some [] => claimedCascade r rest best
      | some docs =>
        let c := formatDocs docs
        if 200 < pyStripLen c then (c, docs)
        else if pyStripLen best.1 < pyStripLen c then claimedCascade r rest (c, docs)
        else claimedCascade r rest best
    else best

/-- Claim C6 as stated: first-accept cascade over the intent queries, with
the bulk empty-query dump only when every query was insufficient. -/
def claimedRetrieve (r : Retriever) : String × List String :=
  let best := claimedCascade r (invoiceQueries ++ broadQueries) ("", [])
  if pyStripLen best.1 ≤ 200 then
    match r.vectorstore with
    | none => best
    | some search =>
      match search "" 200 with
      | none => best
      | some [] => best
      | some docs =>
        let c := formatDocs docs
        if pyStripLen best.1 < pyStripLen c then (c, docs) else best
  else best

/-! ## C1 — invoice arithmetic reconciliation (`business_docs_analyzer.py`,
`analyze_invoice_detailed`, lines 312-335) -/

/-- The numeric components the verification block reads off
`extracted_data` (each via `.get(key, 0) or 0`, so absent/`null` values are
`0`; `taxAmounts` are the `taxAmount` entries of `taxBreakdown`,
`lineItemTotals` the `float(item.get("totalPrice", 0) or 0)` of
`lineItems`). -/
structure InvoiceData where
  subtotal : ℚ
  taxAmounts : List ℚ
  discount : ℚ
  shippingCharges : ℚ
  totalAmount : ℚ
  lineItemTotals : List ℚ
deriving DecidableEq

/-- `calculated_total = subtotal + total_tax - discount + shipping`. -/
def computedTotal (d : InvoiceData) : ℚ :=
  d.subtotal + d.taxAmounts.sum - d.discount + d.shippingCharges

/-- Calculation-error findings, distinguished by append site; each carries
exactly the numbers interpolated into its f-string message. -/
inductive CalcError where
  | totalMismatch (subtotal totalTax discount shipping calculatedTotal statedTotal difference : ℚ)
  | lineItemsMismatch (lineItemsTotal subtotal difference : ℚ)
  | extractionError (message : String)
deriving DecidableEq

/-- Embedding of the verification block: the total reconciliation
(`abs(calculated_total - stated_total) > 0.01`) and the line-items check
(`if line_items and abs(line_items_total - subtotal) > 0.01`). -/
def invoiceCalculationErrors (d : InvoiceData) : List CalcError :=
  let totalTax := d.taxAmounts.sum
  let calculatedTotal := d.subtotal + totalTax - d.discount + d.shippingCharges
  let e1 :=
    if 1 / 100 < |calculatedTotal - d.totalAmount| then
      [CalcError.totalMismatch d.subtotal totalTax d.discount d.shippingCharges
        calculatedTotal d.totalAmount |calculatedTotal - d.totalAmount|]
    else []
  let lineItemsTotal := d.lineItemTotals.sum
  let e2 :=
    if d.lineItemTotals ≠ [] ∧ 1 / 100 < |lineItemsTotal - d.subtotal| then
      [CalcError.lineItemsMismatch lineItemsTotal d.subtotal |lineItemsTotal - d.subtotal|]
    else []
  e1 ++ e2

/-- Recogniser for the `"Total Amount Calculation Mismatch"` finding. -/
def isTotalMismatch : CalcError → Bool
  | .totalMismatch _ _ _ _ _ _ _ => true
  | _ => false

/-! ## C3 — partial-failure behaviour of the invoice orchestration
(`business_docs_analyzer.py`, `analyze_invoice_detailed`, lines 205-555) -/

/-- `extracted_data.get(k, 0) or 0` followed by arithmetic use: numeric JSON
values pass through, `null`/missing give `0`. -/
def jGetNum (fields : List (String × JValue)) (k : String) : ℚ :=
  match lookupField fields k with
  | some (.num q) => q
  | _ => 0

/-- Read the `InvoiceData` components out of the parsed comprehensive
extraction object, as the verification block does. -/
def invoiceDataOfJson : JValue → InvoiceData
  | .obj fields =>
    { subtotal := jGetNum fields "subtotal"
      taxAmounts :=
        (match lookupField fields "taxBreakdown" with
         | some (.arr items) =>
           items.map (fun it =>
             match it with
             | .obj f => jGetNum f "taxAmount"
             | _ => 0)
         | _ => [])
      discount := jGetNum fields "discount"
      shippingCharges := jGetNum fields "shippingCharges"
      totalAmount := jGetNum fields "totalAmount"
      lineItemTotals :=
        (match lookupField fields "lineItems" with
         | some (.arr items) =>
           items.map (fun it =>
             match it with
             | .obj f => jGetNum f "totalPrice"
             | _ => 0)
         | _ => []) }
  | _ =>
    { subtotal := 0, taxAmounts := [], discount := 0, shippingCharges := 0,
      totalAmount := 0, lineItemTotals := [] }

/-- Parse of the comprehensive reply inside the big `try` block: `none`
models a `json.loads` exception reaching the `except`; the no-match regex
fallback is the empty dict and raises nothing. -/
def parseComprehensiveReply (reply : String) : Option JValue :=
  if pyStartsWith (pyStrip reply) "\x7b" then jsonLoads reply
  else
    match braceSearch reply with
    | some sub => jsonLoads sub
    | none => some (.obj [])

/-- Reply parsing for the risk/payment sections: default value kept when the
parse raises (`except ... pass`) or the regex finds nothing. -/
def parseObjReplyD (deflt : JValue) (reply : String) : JValue :=
  if pyStartsWith (pyStrip reply) "\x7b" then
    match jsonLoads reply with
    | some v => v
    | none => deflt
  else
    match braceSearch reply with
    | some sub =>
      match jsonLoads sub with
      | some v => v
      | none => deflt
    | none => deflt

/-- The `risk_info` skeleton assigned before the risk parse. -/
def riskDefault : JValue :=
  .obj [("risks", .arr []), ("complianceIssues", .arr []), ("missingInformation", .arr []),
    ("duplicateCharges", .arr []), ("suspiciousPatterns", .arr [])]

/-- CPython `str.format(**kwargs)`: raises `KeyError(k)` at the first
replacement field whose name `k` is not among the keyword arguments. -/
def pyFormatCheck (placeholders kwargs : List String) : Except String Unit :=
  match placeholders.find? (fun p => ¬ kwargs.contains p) with
  | some missing => Except.error ("KeyError: " ++ missing)
  | none => Except.ok ()

/-- Replacement fields of `formatted_risk_template`, in template order.
`risk_template` contains the literal text `{{context}}`, which
`.replace("{{context}}", "{context}")` turns into the field `{context}`
BEFORE `.format(...)` runs — so `context` is a replacement field of the
string being formatted. -/
def riskTemplateFields : List String :=
  ["context", "vendor_name", "buyer_name", "currency", "total_amount", "currency", "subtotal",
    "currency", "total_tax", "currency", "discount", "currency", "shipping", "line_items_count"]

/-- Keyword arguments supplied to the risk `.format(...)` call. -/
def riskFormatKwargs : List String :=
  ["vendor_name", "buyer_name", "currency", "total_amount", "subtotal", "total_tax", "discount",
    "shipping", "line_items_count"]

/-- Replacement fields of `formatted_payment_template` (same
replace-then-format pattern). -/
def paymentTemplateFields : List String :=
  ["context", "payment_terms", "due_date", "payment_method", "transaction_id"]

/-- Keyword arguments supplied to the payment `.format(...)` call. -/
def paymentFormatKwargs : List String :=
  ["payment_terms", "due_date", "payment_method", "transaction_id"]

/-- The LLM sub-call replies used by one `analyze_invoice_detailed` run;
`Except.error e` models the chain invocation raising (timeout, network,
inference failure). -/
structure InvoiceOracles where
  comprehensiveReply : Except String String
  riskReply : Except String String
  paymentReply : Except String String
  tablesReply : Except String String

/-- The composite report assembled at the end of `analyze_invoice_detailed`
(summary-string construction elided; each field keeps the data that decides
the claims). -/
structure InvoiceReport where
  documentType : String
  errorField : Option String
  financialData : Option InvoiceData
  lineItemTotals : List ℚ
  paymentParsed : Option JValue
  riskParsed : Option JValue
  calculationErrors : List CalcError
  tables : List JValue

/-- Embedding of `BusinessDocsAnalyzer.extract_tables` end-to-end: the two
document retrievals and the chain invocation are OUTSIDE the `try` block, so
their exceptions propagate to the caller (`Except.error`). -/
def extractTables (r : Retriever) (reply : Except String String) :
    Except String (List JValue) := do
  let docs1 ←
    (if r.hasGetRelevant then
        match r.getRelevant "invoice line items products services" with
        | some ds => Except.ok ds
        | none => Except.error "retriever error"
      else Except.ok [])
  let docs ←
    (if docs1 = [] then
        (if r.hasGetRelevant then
            match r.getRelevant "document" with
            | some ds => Except.ok ds
            | none => Except.error "retriever error"
          else Except.ok [])
      else Except.ok docs1)
  let content := if docs = [] then "" else formatDocs docs
  if content = "" ∨ pyStripLen content < 50 then Except.ok []
  else do
    let result ← reply
    Except.ok (parseTablesReply result)

/-- Embedding of `BusinessDocsAnalyzer.analyze_invoice_detailed`: content
extraction and sufficiency gate; comprehensive extraction + verification
inside `try/except`; then the risk-template `.format(...)` — whose
`KeyError` is raised OUTSIDE any `try` — then the risk invoke (inside
`try`), the payment-template format and payment invoke (both outside any
`try`), the payment parse, and the tables step.  `Except.error` is an
uncaught exception aborting the whole call. -/
def analyzeInvoiceDetailed (r : Retriever) (o : InvoiceOracles) :
    Except String InvoiceReport :=
  let content := (extractInvoiceContent r).1
  if content = "" ∨ pyStripLen content < 20 then
    Except.ok
      { documentType := "Invoice"
        errorField := some "Could not extract sufficient content from the invoice PDF."
        financialData := none, lineItemTotals := [], paymentParsed := none, riskParsed := none
        calculationErrors := [], tables := [] }
  else
    let step1 : Option InvoiceData × List ℚ × List CalcError :=
      match o.comprehensiveReply with
      | .error e => (none, [], [CalcError.extractionError e])
      | .ok reply =>
        match parseComprehensiveReply reply with
        | none => (none, [], [CalcError.extractionError "JSONDecodeError"])
        | some v =>
          let d := invoiceDataOfJson v
          (some d, d.lineItemTotals, invoiceCalculationErrors d)
    let financialInfo := step1.1
    let lineItems := step1.2.1
    let calcErrors := step1.2.2
    match pyFormatCheck riskTemplateFields riskFormatKwargs with
    | .error e => Except.error e
    | .ok _ =>
      let riskInfo : JValue :=
        match o.riskReply with
        | .error _ => .obj []
        | .ok reply => parseObjReplyD riskDefault reply
      match pyFormatCheck paymentTemplateFields paymentFormatKwargs with
      | .error e => Except.error e
      | .ok _ =>
        match o.paymentReply with
        | .error e => Except.error e
        | .ok reply =>
          let paymentInfo := parseObjReplyD (.obj []) reply
          match extractTables r o.tablesReply with
          | .error e => Except.error e
          | .ok tables =>
            Except.ok
              { documentType := "Invoice"
                errorField := none
                financialData := financialInfo
                lineItemTotals := lineItems
                paymentParsed := some paymentInfo
                riskParsed := some riskInfo
                calculationErrors := calcErrors
                tables := tables }

/-! ## C7 — chunking round-trip (`app.py`, `upload_file`, line 994)

The handler calls `CharacterTextSplitter(chunk_size=1000, chunk_overlap=100)`
— an external library collaborator whose implementation is not part of these
sources. -/

/-- Modelled from the spec: the Chunker contract (spec §4.2) for the missing
`CharacterTextSplitter` implementation — windows of `size` characters
advancing by `step = size - overlap` each step; the last window may be
shorter than `size`.  Fuel-indexed (`fuel = text.length` suffices since
`step ≥ 1` characters are consumed per emitted chunk). -/
def chunkAux (size step : Nat) : Nat → List Char → List (List Char)
  | 0, _ => []
  | _, [] => []
  | fuel + 1, text =>
    if text.length ≤ size then [text]
    else text.take size :: chunkAux size step fuel (text.drop step)

/-- Modelled from the spec: `chunk(text, size=1000, overlap=100)`. -/
def chunk (text : List Char) : List (List Char) := chunkAux 1000 900 text.length text

/-- Concatenate chunks, removing the declared overlap length from the start
of every chunk after the first. -/
def joinWithOverlap (overlap : Nat) : List (List Char) → List Char
  | [] => []
  | c :: rest => c ++ (rest.map (List.drop overlap)).flatten

/-! ## C8 — upload handling (`app.py`, `upload_file`, lines 957-1006) -/

/-- An uploaded file, after `werkzeug.secure_filename` (external sanitizer):
`pdfPages` is the per-page text `fitz` extracts, in page order; `rawText`
the file decoded as text with `errors="ignore"`. -/
structure UploadedFile where
  filename : String
  pdfPages : List String
  rawText : String

/-- Outcome of the `/upload` handler: the error responses (all HTTP 400) or
the success path, which chunks and indexes the extracted text. -/
inductive UploadOutcome where
  | noFilePart
  | noSelectedFile
  | unsupportedType
  | extractionEmpty
  | indexed (chunks : List (List Char)) (fileType : String)

/-- The EDI/text extension list of the handler. -/
def ediExtensions : List String := [".edi", ".txt", ".baplie", ".movins", ".coprar"]

/-- `any(file_ext.endswith(ext) for ext in [...])` with `file_ext = filename.lower()`. -/
def isEdiFilename (filename : String) : Bool :=
  ediExtensions.any (fun ext => pyEndsWith (pyLower filename) ext)

/-- Embedding of the `/upload` route handler `upload_file`.  The FAISS build
and embedding-service calls are external; `indexed` records that the handler
proceeded to chunk and index the text.  `extractionEmpty` is the
`"Could not extract text from file"` 400 response, issued exactly when the
extracted text strips to empty — for a PDF, after concatenating the per-page
text in page order. -/
def uploadFile (req : Option UploadedFile) : UploadOutcome :=
  match req with
  | none => .noFilePart
  | some f =>
    if f.filename = "" then .noSelectedFile
    else if isEdiFilename f.filename then
      if pyStrip f.rawText = "" then .extractionEmpty
      else .indexed (chunk f.rawText.data) "edi"
    else if pyEndsWith f.filename ".pdf" then
      let text := String.join f.pdfPages
      if pyStrip text = "" then .extractionEmpty
      else .indexed (chunk text.data) "pdf"
    else .unsupportedType

/-- The scan granularity of the code, named for the amended C4 statement:
the case-insensitive JSON dump of the FIRST row of the FIRST table (or of
the first character when `rows` is a string) contains a denylist marker. -/
def firstRowLooksSample (tables : List JValue) : Bool :=
  match tables with
  | JValue.obj fields :: _ =>
    match lookupField fields "rows" with
    | some (JValue.arr (r0 :: _)) => rowLooksSample r0
    | some (JValue.str s) =>
      match s.data with
      | ch :: _ => rowLooksSample (JValue.str (String.mk [ch]))
      | [] => false
    | _ => false
  | _ => false

/-! ## Concrete instances for counterexamples and witnesses -/

/-- Line items `[{Widget, qty 2, unit 10}]` with `totalPrice` 20, tax 2,
discount 0, shipping 0, stated total 22 (the reconciling example of the
claim). -/
def invoiceExample22 : InvoiceData :=
  { subtotal := 20, taxAmounts := [2], discount := 0, shippingCharges := 0,
    totalAmount := 22, lineItemTotals := [20] }

/-- The same invoice with stated total 25 (delta 3). -/
def invoiceExample25 : InvoiceData :=
  { subtotal := 20, taxAmounts := [2], discount := 0, shippingCharges := 0,
    totalAmount := 25, lineItemTotals := [20] }

/-- A reconciling total (20 + 2 = 22) whose line items sum to 15 ≠ 20. -/
def invoiceLineItemsOff : InvoiceData :=
  { subtotal := 20, taxAmounts := [2], discount := 0, shippingCharges := 0,
    totalAmount := 22, lineItemTotals := [15] }

/-- The C2 counterexample reply: starts with `{`, strictly unparsable
(trailing data), yet containing a parseable brace substring. -/
def replyCx : String := "\x7b\"a\": \"b\"\x7d x"

/-- A clean extracted row. -/
def widgetRow : JValue :=
  JValue.obj [("description", JValue.str "Widget"), ("quantity", JValue.num 2)]

/-- A fabricated row carrying the denylist marker `"Product A"`. -/
def productARow : JValue := JValue.obj [("description", JValue.str "Product A")]

/-- A table whose FIRST row is clean and whose SECOND row is fabricated. -/
def mixedTable : JValue :=
  JValue.obj [("tableName", JValue.str "Items"), ("rows", JValue.arr [widgetRow, productARow])]

/-- A table whose first row is clean. -/
def cleanTable : JValue :=
  JValue.obj [("tableName", JValue.str "Items"), ("rows", JValue.arr [widgetRow])]

/-- A table whose first row is fabricated. -/
def sampleTable : JValue := JValue.obj [("rows", JValue.arr [productARow])]

/-- 201 stripped characters: sufficient content under the claim reading. -/
def aDoc : String := String.mk (List.replicate 201 'a')

/-- 250 stripped characters: longer than `aDoc`. -/
def bDoc : String := String.mk (List.replicate 250 'b')

/-- C6 counterexample retriever: the first targeted query already returns
sufficient content (201 > 200), a later query returns more (250). -/
def retrieverCx : Retriever :=
  { hasGetRelevant := true
    getRelevant := fun q =>
      if q = "invoice bill invoice number vendor buyer amount total payment" then some [aDoc]
      else if q = "invoice" then some [bDoc]
      else some []
    vectorstore := none }

/-- A retriever whose every query yields 250 characters of content (well
past the 20-character sufficiency gate of `analyze_invoice_detailed`). -/
def retrieverGood : Retriever :=
  { hasGetRelevant := true
    getRelevant := fun _ => some [String.mk (List.replicate 250 'x')]
    vectorstore := none }

/-- The C3 failing input: comprehensive extraction and risk sub-calls
succeed (financial fields and line items populated), the payment-terms
sub-call times out. -/
def invoiceOraclesTimeout : InvoiceOracles :=
  { comprehensiveReply := Except.ok
      "\x7b\"subtotal\": 20, \"totalAmount\": 22, \"taxBreakdown\": [\x7b\"taxAmount\": 2\x7d], \"lineItems\": [\x7b\"totalPrice\": 20\x7d]\x7d"
    riskReply := Except.ok "\x7b\"risks\": []\x7d"
    paymentReply := Except.error "Request timed out"
    tablesReply := Except.ok "[]" }

/-- A whitespace-only two-page PDF upload. -/
def pdfScanExample : UploadedFile := { filename := "scan.pdf", pdfPages := ["", " \n "], rawText := "" }

/-- A one-page PDF upload with real text. -/
def pdfTextExample : UploadedFile :=
  { filename := "invoice.pdf", pdfPages := ["Invoice total 22"], rawText := "" }

/-! ## Theorems -/

/-- C9: the structure-validation result is internally consistent — `isValid`
holds exactly when the accumulated `errors` list is empty
(`len(errors) == 0`; warnings and suggestions never feed into it), and the
`containerNumbers` preview is capped at 10 entries
(`containers_found[:10]`). -/
theorem validateStructure_isValid_iff_no_errors (content formatType : String) :
    ((validateStructure content formatType).isValid = true ↔
      (validateStructure content formatType).errors = []) ∧
    (validateStructure content formatType).containerNumbers.length ≤ 10 := by
  refine ⟨?_, ?_⟩
  · show (validateStructure content formatType).errors.isEmpty = true ↔ _
    simp [List.isEmpty_iff]
  · show (List.take 10 _).length ≤ 10
    rw [List.length_take]
    exact min_le_left _ _

/-- Mapping arbitrary extracted errors into `fromExtraction` mistakes never
produces a verification-failed entry. -/
theorem filter_verificationFailed_fromExtraction (l : List (String × String)) :
    (l.map (fun p => SalaryMistake.fromExtraction p.1 p.2)).filter isVerificationFailed = [] := by
  induction l with
  | nil => rfl
  | cons p rest ih => simpa [List.filter, isVerificationFailed] using ih

/-- C10: the `"Calculation Verification Failed"` branch is unreachable —
`calculated_net_pay` is defined as `calculated_total_earnings -
calculated_total_deductions`, so the guard
`abs(calculated_net_pay - (calculated_total_earnings -
calculated_total_deductions)) > 1` compares `|0| > 1` and never fires, for
every extraction result. -/
theorem salaryMistakes_verification_unreachable (extractedErrors : List (String × String))
    (earnings deductions : List SalaryComponent) (docEarnings docNetPay : SalaryAmount) :
    (salaryMistakes extractedErrors earnings deductions docEarnings docNetPay).filter
      isVerificationFailed = [] := by
  unfold salaryMistakes
  have h10 : ¬ (1 : ℚ) < 0 := by norm_num
  cases docEarnings <;> cases docNetPay <;>
    simp [toNumOpt, List.filter_append, filter_verificationFailed_fromExtraction, sub_self,
      abs_zero, h10, isVerificationFailed, List.filter] <;>
    first
    | rfl
    | (intros; subst_vars; rfl)
    | (constructor <;> (intros; subst_vars; rfl))

/-- C5 counterexample: the derived levels are the uppercase strings `"HIGH"`
/ `"LOW"`, not the lowercase `"high"` / `"low"` the claim asserts. -/
theorem overallRisk_case_counterexample :
    calculateOverallRisk [⟨"high"⟩, ⟨"high"⟩, ⟨"low"⟩] = "HIGH" ∧
      calculateOverallRisk [⟨"low"⟩] = "LOW" ∧
      ("HIGH" : String) ≠ "high" ∧ ("LOW" : String) ≠ "low" := by
  refine ⟨by decide, by decide, by decide, by decide⟩

/-- C5 (amended): the thresholds are as claimed — at least 2 high-severity
risks give the overall level `"HIGH"`; else at least 1 high or at least 3
medium give `"MEDIUM"`; else `"LOW"` — with the levels reported in UPPERCASE
and the per-risk `riskLevel` compared case-insensitively. -/
theorem overallRisk_thresholds (risks : List ContractRisk) :
    calculateOverallRisk risks =
      (if 2 ≤ countRiskLevel risks "HIGH" then "HIGH"
       else if 1 ≤ countRiskLevel risks "HIGH" ∨ 3 ≤ countRiskLevel risks "MEDIUM" then "MEDIUM"
       else "LOW") := by
  unfold calculateOverallRisk
  cases risks with
  | nil => simp [countRiskLevel]
  | cons r rest => simp

/-- C1 counterexample: an invoice whose components reconcile
(|20 + 2 − 0 + 0 − 22| = 0 ≤ 0.01) but whose line items sum to 15 ≠ 20
still yields a calculation-error finding (the line-items check of the same
block), so "zero calculation-error findings" fails as stated. -/
theorem invoiceCalc_reconciled_counterexample :
    |computedTotal invoiceLineItemsOff - invoiceLineItemsOff.totalAmount| ≤ 1 / 100 ∧
      invoiceCalculationErrors invoiceLineItemsOff ≠ [] := by
  constructor
  · norm_num [computedTotal, invoiceLineItemsOff]
  · simp only [invoiceCalculationErrors, invoiceLineItemsOff]
    norm_num

/-- C1 (amended): when the total reconciles AND the line items (when
present) sum to within 0.01 of the subtotal, the block emits no findings;
when the total mismatch exceeds 0.01 it emits exactly one total-mismatch
finding carrying the computed total, the stated total and the delta
(possibly alongside a separate line-items finding). -/
theorem invoiceCalc_characterization (d : InvoiceData) :
    (|computedTotal d - d.totalAmount| ≤ 1 / 100 →
      (d.lineItemTotals = [] ∨ |d.lineItemTotals.sum - d.subtotal| ≤ 1 / 100) →
      invoiceCalculationErrors d = []) ∧
    (1 / 100 < |computedTotal d - d.totalAmount| →
      (invoiceCalculationErrors d).filter isTotalMismatch =
        [CalcError.totalMismatch d.subtotal d.taxAmounts.sum d.discount d.shippingCharges
          (computedTotal d) d.totalAmount |computedTotal d - d.totalAmount|]) := by
  constructor
  · intro h1 h2
    simp only [invoiceCalculationErrors]
    rw [if_neg (by rw [show d.subtotal + d.taxAmounts.sum - d.discount + d.shippingCharges =
          computedTotal d from rfl]; exact not_lt.mpr h1)]
    rcases h2 with h2 | h2
    · rw [if_neg (by simp [h2])]; rfl
    · rw [if_neg (by rintro ⟨_, hlt⟩; exact absurd h2 (not_le.mpr hlt))]; rfl
  · intro h1
    simp only [invoiceCalculationErrors]
    rw [if_pos (by rw [show d.subtotal + d.taxAmounts.sum - d.discount + d.shippingCharges =
          computedTotal d from rfl]; exact h1)]
    rw [List.filter_append]
    have hsingle : List.filter isTotalMismatch
        [CalcError.totalMismatch d.subtotal d.taxAmounts.sum d.discount d.shippingCharges
          (d.subtotal + d.taxAmounts.sum - d.discount + d.shippingCharges) d.totalAmount
          |d.subtotal + d.taxAmounts.sum - d.discount + d.shippingCharges - d.totalAmount|] =
        [CalcError.totalMismatch d.subtotal d.taxAmounts.sum d.discount d.shippingCharges
          (computedTotal d) d.totalAmount |computedTotal d - d.totalAmount|] := rfl
    rw [hsingle]
    split
    · rfl
    · rfl

/-- C1 witness: the claim example with `totalPrice` 20 — stated total 22
yields no finding; stated total 25 yields exactly one total-mismatch finding
with computed total 22, stated total 25 and delta 3. -/
theorem invoiceCalc_characterization_witness :
    invoiceCalculationErrors invoiceExample22 = [] ∧
      (invoiceCalculationErrors invoiceExample25).filter isTotalMismatch =
        [CalcError.totalMismatch 20 2 0 0 22 25 3] := by
  constructor
  · exact (invoiceCalc_characterization invoiceExample22).1
      (by norm_num [computedTotal, invoiceExample22])
      (Or.inr (by norm_num [invoiceExample22]))
  · have h := (invoiceCalc_characterization invoiceExample25).2
      (by norm_num [computedTotal, invoiceExample25])
    rw [h]
    norm_num [computedTotal, invoiceExample25]

/-- Dropping the 100-character overlap from every chunk and concatenating
yields the original text minus its first 100 characters. -/
theorem chunkAux_drop_flatten (fuel : Nat) (text : List Char) (h : text.length ≤ fuel) :
    ((chunkAux 1000 900 fuel text).map (List.drop 100)).flatten = text.drop 100 := by
  induction fuel generalizing text with
  | zero =>
    have : text = [] := List.eq_nil_of_length_eq_zero (Nat.le_zero.mp h)
    subst this
    rfl
  | succ n ih =>
    cases text with
    | nil => rfl
    | cons c cs =>
      rw [chunkAux]
      case x_2 => exact List.cons_ne_nil _ _
      split
      · simp
      · rename_i hlen
        rw [List.map_cons, List.flatten_cons, ih ((c :: cs).drop 900) (by
          rw [List.length_drop]
          omega)]
        have hdd : List.drop 100 (List.drop 900 (c :: cs)) =
            List.drop 900 (List.drop 100 (c :: cs)) := by
          rw [List.drop_drop, List.drop_drop]
        rw [hdd, List.drop_take]
        rw [show (1000 : Nat) - 100 = 900 from rfl]
        exact List.take_append_drop 900 ((c :: cs).drop 100)

/-- C7: chunking with size 1000 and overlap 100 round-trips — concatenating
the chunks with the declared 100-character overlap removed from the start of
every chunk after the first reproduces the text exactly, and a non-empty
text shorter than the chunk size yields exactly one chunk equal to the
whole text. -/
theorem chunk_roundTrip (text : List Char) :
    joinWithOverlap 100 (chunk text) = text ∧
      (text ≠ [] → text.length < 1000 → chunk text = [text]) := by
  constructor
  · unfold chunk
    cases text with
    | nil => rfl
    | cons c cs =>
      rw [show (c :: cs).length = cs.length + 1 from rfl, chunkAux]
      case x_2 => exact List.cons_ne_nil _ _
      split
      · simp [joinWithOverlap]
      · rename_i hlen
        rw [joinWithOverlap]
        rw [chunkAux_drop_flatten cs.length ((c :: cs).drop 900) (by
          rw [List.length_drop]
          simp only [List.length_cons]
          omega)]
        have hdd : List.drop 100 (List.drop 900 (c :: cs)) = List.drop 1000 (c :: cs) := by
          rw [List.drop_drop]
        rw [hdd]
        exact List.take_append_drop 1000 (c :: cs)
  · intro hne hlt
    unfold chunk
    cases text with
    | nil => exact absurd rfl hne
    | cons c cs =>
      rw [show (c :: cs).length = cs.length + 1 from rfl, chunkAux]
      case x_2 => exact List.cons_ne_nil _ _
      rw [if_pos (Nat.le_of_lt hlt)]

/-- C7 witness: a three-character text is one chunk equal to itself, and the
round-trip reproduces it. -/
theorem chunk_roundTrip_witness :
    chunk "abc".data = ["abc".data] ∧ joinWithOverlap 100 (chunk "abc".data) = "abc".data :=
  ⟨(chunk_roundTrip "abc".data).2 (by decide) (by decide), (chunk_roundTrip "abc".data).1⟩

/-- C8: for a PDF upload the handler concatenates the per-page extracted
text in page order; when that text strips to empty it answers the
`"Could not extract text from file"` 400 error and never reaches chunking
and indexing, and otherwise it proceeds to chunk exactly that concatenated
text. -/
theorem uploadFile_pdf_empty_guard (f : UploadedFile)
    (hpdf : pyEndsWith f.filename ".pdf" = true)
    (hedi : isEdiFilename f.filename = false)
    (hname : f.filename ≠ "") :
    (pyStrip (String.join f.pdfPages) = "" →
      uploadFile (some f) = UploadOutcome.extractionEmpty) ∧
    (pyStrip (String.join f.pdfPages) ≠ "" →
      uploadFile (some f) = UploadOutcome.indexed (chunk (String.join f.pdfPages).data) "pdf") := by
  constructor
  · intro hempty
    simp only [uploadFile]
    rw [if_neg hname]
    simp [hedi, hpdf, hempty]
  · intro hfull
    simp only [uploadFile]
    rw [if_neg hname]
    simp [hedi, hpdf, hfull]

/-- C8 witness: a whitespace-only two-page scan is rejected with the empty
extraction error; a one-page PDF with text proceeds to chunking. -/
theorem uploadFile_pdf_empty_guard_witness :
    uploadFile (some pdfScanExample) = UploadOutcome.extractionEmpty ∧
      uploadFile (some pdfTextExample) =
        UploadOutcome.indexed (chunk (String.join pdfTextExample.pdfPages).data) "pdf" :=
  ⟨(uploadFile_pdf_empty_guard pdfScanExample (by decide) (by decide) (by decide)).1 (by decide),
   (uploadFile_pdf_empty_guard pdfTextExample (by decide) (by decide) (by decide)).2 (by decide)⟩

/-- C2 counterexample: the reply starts with `{` but fails the strict parse
(trailing data), and the code returns the fallback WITHOUT attempting the
bracket-pair stage — while the claimed two-stage contract would locate the
brace substring and parse it. -/
theorem extractInsights_two_stage_counterexample :
    extractInsightsParse replyCx = InsightsResult.fallback replyCx ∧
      claimedTolerantParse replyCx = InsightsResult.parsed (JValue.obj [("a", JValue.str "b")]) ∧
      InsightsResult.fallback replyCx ≠
        InsightsResult.parsed (JValue.obj [("a", JValue.str "b")]) :=
  ⟨by rfl, by rfl, fun h => InsightsResult.noConfusion h⟩

/-- C2 (amended): the strict parse is attempted only when the stripped reply
starts with `{`, and its failure falls directly to the fallback (raw reply
kept as the summary, list fields empty) without attempting the bracket
search; the bracket-pair search and substring parse run only when the reply
does not start with `{`; in every case a tagged result is returned, never an
exception. -/
theorem extractInsights_staged (s : String) :
    (∀ v, pyStartsWith (pyStrip s) "\x7b" = true → jsonLoads s = some v →
      extractInsightsParse s = InsightsResult.parsed v) ∧
    (pyStartsWith (pyStrip s) "\x7b" = true → jsonLoads s = none →
      extractInsightsParse s = InsightsResult.fallback s) ∧
    (∀ sub v, pyStartsWith (pyStrip s) "\x7b" = false → braceSearch s = some sub →
      jsonLoads sub = some v → extractInsightsParse s = InsightsResult.parsed v) ∧
    (∀ sub, pyStartsWith (pyStrip s) "\x7b" = false → braceSearch s = some sub →
      jsonLoads sub = none → extractInsightsParse s = InsightsResult.fallback s) ∧
    (pyStartsWith (pyStrip s) "\x7b" = false → braceSearch s = none →
      extractInsightsParse s = InsightsResult.fallback s) := by
  refine ⟨?_, ?_, ?_, ?_, ?_⟩ <;> intros <;> simp_all [extractInsightsParse]

/-- C2 witness: a well-formed object reply parses strictly; a braceless
reply falls back with the raw text retained. -/
theorem extractInsights_staged_witness :
    extractInsightsParse "\x7b\"a\": \"b\"\x7d" =
        InsightsResult.parsed (JValue.obj [("a", JValue.str "b")]) ∧
      extractInsightsParse "no json here" = InsightsResult.fallback "no json here" :=
  ⟨(extractInsights_staged "\x7b\"a\": \"b\"\x7d").1 (JValue.obj [("a", JValue.str "b")]) (by rfl) (by rfl),
   (extractInsights_staged "no json here").2.2.2.2 (by rfl) (by rfl)⟩

/-- C4 counterexample: a parsed extraction whose SECOND row carries the
denylist marker `"Product A"` is NOT discarded — the code scans only the
first row of the first table and returns the fabricated rows unchanged. -/
theorem sanitizeTables_any_row_counterexample :
    anyRowLooksSample [mixedTable] = true ∧
      sanitizeTables [mixedTable] = [mixedTable] ∧
      [mixedTable] ≠ ([] : List JValue) := by
  refine ⟨by rfl, by rfl, by simp⟩

/-- C4 (amended): the denylist scan covers ONLY the first row of the first
table (with `"Product B"`, `"Product C"` also denylisted); when the
case-insensitive JSON dump of that row contains a marker the whole
extraction is discarded to `[]`; when the first table is an object whose
`rows` is an array and that first row is clean, the parsed tables are
returned unchanged; and the step always either keeps everything or discards
everything. -/
theorem sanitizeTables_first_row_scan (tables : List JValue) :
    (firstRowLooksSample tables = true → sanitizeTables tables = []) ∧
    (∀ fields rows rest, tables = JValue.obj fields :: rest →
      lookupField fields "rows" = some (JValue.arr rows) →
      firstRowLooksSample tables = false → sanitizeTables tables = tables) ∧
    (sanitizeTables tables = [] ∨ sanitizeTables tables = tables) := by
  refine ⟨?_, ?_, ?_⟩
  · intro h
    cases tables with
    | nil => simp [firstRowLooksSample] at h
    | cons first rest =>
      cases first with
      | obj fields =>
        simp only [firstRowLooksSample] at h
        simp only [sanitizeTables]
        cases hrows : lookupField fields "rows" with
        | none => rw [hrows] at h; exact absurd h (by simp)
        | some rowsVal =>
          rw [hrows] at h
          cases rowsVal with
          | arr rows =>
            cases rows with
            | nil => exact absurd h (by simp)
            | cons r0 rs => simp_all [pyTruthy]
          | str s =>
            cases hd : s.data with
            | nil => simp [hd] at h
            | cons ch cr =>
              have hs : s ≠ "" := by
                intro hcon
                rw [hcon] at hd
                exact List.noConfusion hd
              simp only [] at h
              rw [hd] at h
              simp [pyTruthy, hs, hd]
              exact h
          | null => exact absurd h (by simp)
          | bool b => exact absurd h (by simp)
          | num q => exact absurd h (by simp)
          | obj f2 => exact absurd h (by simp)
      | null => simp [firstRowLooksSample] at h
      | bool b => simp [firstRowLooksSample] at h
      | num q => simp [firstRowLooksSample] at h
      | str s => simp [firstRowLooksSample] at h
      | arr l => simp [firstRowLooksSample] at h
  · intro fields rows rest htab hrows hclean
    subst htab
    simp only [sanitizeTables, hrows]
    simp only [firstRowLooksSample, hrows] at hclean
    cases rows with
    | nil => simp [pyTruthy]
    | cons r0 rs => simp_all [pyTruthy]
  · cases tables with
    | nil => right; rfl
    | cons first rest =>
      cases first with
      | obj fields =>
        simp only [sanitizeTables]
        cases lookupField fields "rows" with
        | none => right; rfl
        | some rowsVal =>
          cases rowsVal with
          | arr rows =>
            cases rows with
            | nil => right; simp [pyTruthy]
            | cons r0 rs =>
              simp only [pyTruthy]
              split <;> simp
          | str s =>
            by_cases hs : s = ""
            · subst hs; right; simp [pyTruthy]
            · simp only [pyTruthy]
              cases hd : s.data with
              | nil =>
                right
                simp [hs]
              | cons ch cr =>
                simp only [hs]
                split <;> simp [hs]
          | null => right; simp [pyTruthy]
          | bool b => cases b <;> simp [pyTruthy]
          | num q =>
            by_cases hq : q = 0
            · right; simp [pyTruthy, hq]
            · left; simp [pyTruthy, hq]
          | obj f2 =>
            cases f2 with
            | nil => right; simp [pyTruthy]
            | cons p ps => left; simp [pyTruthy]
      | null => left; rfl
      | bool b => left; rfl
      | num q => left; rfl
      | str s => left; rfl
      | arr l => left; rfl

/-- C4 witness: a clean first row keeps the extraction; a fabricated first
row discards it. -/
theorem sanitizeTables_first_row_scan_witness :
    sanitizeTables [cleanTable] = [cleanTable] ∧ sanitizeTables [sampleTable] = [] :=
  ⟨(sanitizeTables_first_row_scan [cleanTable]).2.1 _ [widgetRow] [] (by rfl) (by rfl) (by rfl),
   (sanitizeTables_first_row_scan [sampleTable]).1 (by rfl)⟩

/-- One query step never shrinks the stripped content length. -/
theorem considerQuery_mono (r : Retriever) (best : String × List String) (q : String) :
    pyStripLen best.1 ≤ pyStripLen (considerQuery r best q).1 := by
  unfold considerQuery
  split
  · cases hq : r.getRelevant q with
    | none => simp
    | some docs =>
      cases docs with
      | nil => simp
      | cons d ds =>
        simp only []
        split
        · rename_i hlt
          exact le_of_lt hlt
        · exact le_rfl
  · exact le_rfl

/-- Folding the query loop never shrinks the stripped content length. -/
theorem foldl_considerQuery_mono (r : Retriever) (qs : List String)
    (best : String × List String) :
    pyStripLen best.1 ≤ pyStripLen (qs.foldl (considerQuery r) best).1 := by
  induction qs generalizing best with
  | nil => exact le_rfl
  | cons q rest ih =>
    rw [List.foldl_cons]
    exact le_trans (considerQuery_mono r best q) (ih _)

/-- After considering a query that succeeds with a non-empty result, the
kept content is at least as long as that result. -/
theorem considerQuery_reaches (r : Retriever) (best : String × List String) (q : String)
    (docs : List String) (hr : r.hasGetRelevant = true) (hq : r.getRelevant q = some docs)
    (hne : docs ≠ []) :
    pyStripLen (formatDocs docs) ≤ pyStripLen (considerQuery r best q).1 := by
  unfold considerQuery
  rw [if_pos hr, hq]
  cases docs with
  | nil => exact absurd rfl hne
  | cons d ds =>
    simp only []
    split
    · exact le_rfl
    · rename_i hnlt
      exact le_of_not_lt hnlt

/-- The query loop keeps the longest result: its outcome is at least as long
as the result of every successful non-empty query in the list. -/
theorem foldl_considerQuery_reaches (r : Retriever) (qs : List String)
    (best : String × List String) (q : String) (docs : List String) (hmem : q ∈ qs)
    (hr : r.hasGetRelevant = true) (hq : r.getRelevant q = some docs) (hne : docs ≠ []) :
    pyStripLen (formatDocs docs) ≤ pyStripLen (qs.foldl (considerQuery r) best).1 := by
  induction qs generalizing best with
  | nil => cases hmem
  | cons q0 rest ih =>
    rw [List.foldl_cons]
    rcases List.mem_cons.mp hmem with h | h
    · subst h
      exact le_trans (considerQuery_reaches r best q docs hr hq hne)
        (foldl_considerQuery_mono r rest _)
    · exact ih _ h

set_option maxRecDepth 16384

set_option maxHeartbeats 1600000

/-- C6 counterexample: the first targeted query already yields sufficient
content (201 > 200 stripped characters) yet the code does NOT accept it — it
keeps scanning and returns the longer 250-character result of a later query,
while the claimed first-accept cascade returns the first sufficient one. -/
theorem extractInvoiceContent_first_accept_counterexample :
    extractInvoiceContent retrieverCx = (bDoc, [bDoc]) ∧
      claimedRetrieve retrieverCx = (aDoc, [aDoc]) ∧ bDoc ≠ aDoc := by
  refine ⟨by rfl, by rfl, by decide⟩

/-- Strategy 2 never shrinks the stripped content length. -/
theorem invoiceStage2_mono (r : Retriever) (s : String × List String) :
    pyStripLen s.1 ≤ pyStripLen (invoiceStage2 r s).1 := by
  unfold invoiceStage2
  split
  · exact foldl_considerQuery_mono r broadQueries s
  · exact le_rfl

/-- The bulk dump never shrinks the stripped content length. -/
theorem invoiceBulk_mono (r : Retriever) (s : String × List String) :
    pyStripLen s.1 ≤ pyStripLen (invoiceBulk r s).1 := by
  unfold invoiceBulk
  split
  · cases r.vectorstore with
    | none => exact le_rfl
    | some search =>
      simp only []
      cases search "" 200 with
      | none => exact le_rfl
      | some docs =>
        cases docs with
        | nil => exact le_rfl
        | cons d ds =>
          simp only []
          split
          · rename_i hlt
            exact le_of_lt hlt
          · exact le_rfl
  · exact le_rfl

/-- Sufficient content short-circuits strategy 2. -/
theorem invoiceStage2_id (r : Retriever) (s : String × List String)
    (h : 200 ≤ pyStripLen s.1) : invoiceStage2 r s = s := by
  unfold invoiceStage2
  rw [if_neg (not_lt.mpr h)]

/-- Sufficient content short-circuits the bulk dump. -/
theorem invoiceBulk_id (r : Retriever) (s : String × List String)
    (h : 200 ≤ pyStripLen s.1) : invoiceBulk r s = s := by
  unfold invoiceBulk
  rw [if_neg (not_lt.mpr h)]

/-- C6 (amended): within the targeted stage the code tries EVERY query and
keeps the longest stripped content (no first-accept); a stage-1 best of at
least 200 stripped characters is returned unchanged (broad stage and bulk
dump skipped); and while the best content is still under the gate, the bulk
`similarity_search("", k=200)` dump replaces it exactly when strictly
longer. -/
theorem extractInvoiceContent_cascade (r : Retriever) :
    (∀ q docs, q ∈ invoiceQueries → r.hasGetRelevant = true → r.getRelevant q = some docs →
      docs ≠ [] → pyStripLen (formatDocs docs) ≤ pyStripLen (extractInvoiceContent r).1) ∧
    (200 ≤ pyStripLen (invoiceStage1 r).1 → extractInvoiceContent r = invoiceStage1 r) ∧
    (∀ search docs s2, s2 = invoiceStage2 r (invoiceStage1 r) → pyStripLen s2.1 < 200 →
      r.vectorstore = some search → search "" 200 = some docs → docs ≠ [] →
      pyStripLen s2.1 < pyStripLen (formatDocs docs) →
      extractInvoiceContent r = (formatDocs docs, docs)) := by
  refine ⟨?_, ?_, ?_⟩
  · intro q docs hmem hr hq hne
    unfold extractInvoiceContent
    refine le_trans ?_ (le_trans (invoiceStage2_mono r (invoiceStage1 r))
      (invoiceBulk_mono r (invoiceStage2 r (invoiceStage1 r))))
    exact foldl_considerQuery_reaches r invoiceQueries ("", []) q docs hmem hr hq hne
  · intro h200
    unfold extractInvoiceContent
    rw [invoiceStage2_id r _ h200, invoiceBulk_id r _ h200]
  · intro search docs s2 hs2 hlt hv hq hne hlonger
    unfold extractInvoiceContent
    rw [← hs2]
    unfold invoiceBulk
    rw [if_pos hlt, hv]
    cases docs with
    | nil => exact absurd rfl hne
    | cons d ds =>
      simp only [hq]
      rw [if_pos hlonger]

/-- C6 witness: on the counterexample retriever the "keeps the longest"
bound holds for the `"invoice"` query, and the 250-character stage-1 best is
already sufficient, so later stages leave it unchanged. -/
theorem extractInvoiceContent_cascade_witness :
    pyStripLen (formatDocs [bDoc]) ≤ pyStripLen (extractInvoiceContent retrieverCx).1 ∧
      extractInvoiceContent retrieverCx = invoiceStage1 retrieverCx :=
  ⟨(extractInvoiceContent_cascade retrieverCx).1 "invoice" [bDoc] (by decide) (by rfl) (by rfl)
      (by simp),
   (extractInvoiceContent_cascade retrieverCx).2.1 (by decide)⟩

/-- C3: when the financial-fields/line-items (comprehensive) extraction and
the risk sub-call succeed but the payment-terms sub-call times out, no
partial report is returned — the embedded `analyze_invoice_detailed` aborts
with an uncaught exception.  (Concretely the run never even reaches the
payment invoke: the `formatted_risk_template` `.format(...)` call, outside
any `try`, raises `KeyError('context')` because `{context}` is a replacement
field of the formatted string; and the payment `chain.invoke` itself is
likewise outside any `try`, so the claimed error-marker path does not
exist.) -/
theorem analyzeInvoice_payment_failure_aborts :
    analyzeInvoiceDetailed retrieverGood invoiceOraclesTimeout =
      Except.error "KeyError: context" := by rfl
